import Mathlib

/-!
Verification of the request-construction / response-decoding contract of the
two Gemini client scripts (`generateResponse-gemini.py` and
`generateResponse.py`).  The Python code builds nested dict/list JSON values,
so the embedding works over a small JSON value type; Python bytes are
`List Nat` with every element below 256; Python floats that are only passed
through (never computed with) are `Rat`.
-/

/-- JSON values as built by the scripts: strings, ints, floats, arrays and
ordered objects (Python dicts preserve insertion order). -/
inductive Json where
  | str : String → Json
  | int : Int → Json
  | num : Rat → Json
  | arr : List Json → Json
  | obj : List (String × Json) → Json

/-- Python truthiness of a JSON value: empty strings, zero numbers and empty
containers are falsy, everything else truthy. -/
def pyTruthy : Json → Bool
  | Json.str s => !s.isEmpty
  | Json.int n => !(n == 0)
  | Json.num q => if q = 0 then false else true
  | Json.arr xs => !xs.isEmpty
  | Json.obj kvs => !kvs.isEmpty

/-- Key lookup on a JSON object, mirroring `d[k]` / `k in d` on a Python
dict; returns `none` when the key is absent or the value is not an object. -/
def Json.lookup (j : Json) (key : String) : Option Json :=
  match j with
  | Json.obj kvs => (kvs.find? (fun kv => kv.1 == key)).map (fun kv => kv.2)
  | _ => none

/-! ## Base64 (model of Python's `base64.b64encode` / `base64.b64decode`)

The scripts use the standard alphabet with `=` padding.  `b64decodePy`
returns `none` on input that is not a well-formed base64 string, modelling
the `binascii.Error` that Python raises on malformed input. -/

/-- The standard base64 alphabet in order. -/
def b64chars : List Char :=
  ['A', 'B', 'C', 'D', 'E', 'F', 'G', 'H', 'I', 'J', 'K', 'L', 'M',
   'N', 'O', 'P', 'Q', 'R', 'S', 'T', 'U', 'V', 'W', 'X', 'Y', 'Z',
   'a', 'b', 'c', 'd', 'e', 'f', 'g', 'h', 'i', 'j', 'k', 'l', 'm',
   'n', 'o', 'p', 'q', 'r', 's', 't', 'u', 'v', 'w', 'x', 'y', 'z',
   '0', '1', '2', '3', '4', '5', '6', '7', '8', '9', '+', '/']

/-- Character of a 6-bit value. -/
def b64CharOf (n : Nat) : Char := b64chars.getD n '='

/-- Six-bit value of an alphabet character (first index in the alphabet). -/
def b64ValOf (c : Char) : Nat := b64chars.findIdx (fun x => x == c)

/-- Base64-encode a byte list, three bytes to four characters, with `=`
padding on a trailing group of one or two bytes. -/
def b64encodeList : List Nat → List Char
  | [] => []
  | [a] => [b64CharOf (a / 4), b64CharOf (a % 4 * 16), '=', '=']
  | [a, b] => [b64CharOf (a / 4), b64CharOf (a % 4 * 16 + b / 16),
               b64CharOf (b % 16 * 4), '=']
  | a :: b :: c :: rest =>
      b64CharOf (a / 4) :: b64CharOf (a % 4 * 16 + b / 16) ::
      b64CharOf (b % 16 * 4 + c / 64) :: b64CharOf (c % 64) :: b64encodeList rest

/-- Result of `base64.b64encode(bytes).decode("utf-8")`. -/
def b64encodePy (bs : List Nat) : String := String.mk (b64encodeList bs)

/-- Base64-decode a character list in strict four-character groups; `none`
models the exception Python raises on malformed input. -/
def b64decodeList : List Char → Option (List Nat)
  | [] => some []
  | c0 :: c1 :: c2 :: c3 :: rest =>
    if b64chars.contains c0 && b64chars.contains c1 then
      let n0 := b64ValOf c0
      let n1 := b64ValOf c1
      if c2 == '=' then
        if c3 == '=' && rest.isEmpty then some [n0 * 4 + n1 / 16] else none
      else if b64chars.contains c2 then
        let n2 := b64ValOf c2
        if c3 == '=' then
          if rest.isEmpty then some [n0 * 4 + n1 / 16, n1 % 16 * 16 + n2 / 4]
          else none
        else if b64chars.contains c3 then
          let n3 := b64ValOf c3
          (b64decodeList rest).map
            (fun tail => (n0 * 4 + n1 / 16) :: (n1 % 16 * 16 + n2 / 4) ::
                         (n2 % 4 * 64 + n3) :: tail)
        else none
      else none
    else none
  | _ => none

/-- Result of `base64.b64decode(s)`: the decoded bytes, or `none` where
Python raises. -/
def b64decodePy (s : String) : Option (List Nat) := b64decodeList s.data

/-! ## mimetypes (model of the Python stdlib lookups the scripts use) -/

/-- Extension of a path: the final dot and what follows it, if any dot occurs.
Modelled from the spec: the Python stdlib resolves a MIME type "by file
extension"; this is the subset of `mimetypes` behaviour the scripts rely on. -/
def file_ext (path : String) : Option String :=
  let cs := path.data
  if cs.contains '.' then
    some (String.mk ('.' :: (cs.reverse.takeWhile (fun c => !(c == '.'))).reverse))
  else none

/-- Modelled from the spec: subset of the Python stdlib `mimetypes.guess_type`
table sufficient for the claims (type resolved from the file extension,
`none` when unresolvable). -/
def mimetypes_guess_type (path : String) : Option String :=
  match file_ext path with
  | some e =>
    (([(".png", "image/png"), (".jpg", "image/jpeg"), (".jpeg", "image/jpeg"),
       (".gif", "image/gif"), (".pdf", "application/pdf"), (".txt", "text/plain")]
      : List (String × String)).find? (fun kv => kv.1 == e)).map (fun kv => kv.2)
  | none => none

/-- Modelled from the spec: subset of the Python stdlib
`mimetypes.guess_extension` table sufficient for the claims (`none` when the
MIME type maps to no extension). -/
def mimetypes_guess_extension (mime : String) : Option String :=
  (([("image/png", ".png"), ("image/jpeg", ".jpg"), ("image/gif", ".gif"),
     ("application/pdf", ".pdf"), ("text/plain", ".txt")]
    : List (String × String)).find? (fun kv => kv.1 == mime)).map (fun kv => kv.2)

/-! ## call_gemini_api, variant `generateResponse-gemini.py`

`GeminiArgs` holds the parameter values the function body sees;
`GeminiCall` holds what the caller supplied for each keyword (outer `none`
means the keyword was omitted), and `resolve_gemini_call` applies Python's
call semantics to the function's signature: parameters without a default
raise `TypeError` when omitted, the rest fill in their declared defaults. -/

structure GeminiArgs where
  api_key : String
  gemini_user_prompt : String
  gemini_max_tokens : Int
  gemini_system_instruction : Option Json
  gemini_inline_data : Option Json
  gemini_temperature : Rat
  gemini_top_p : Rat
  gemini_top_k : Int
  gemini_candidate_count : Int
  gemini_safety_threshold : String
  gemini_api_version : String
  model : String

/-- Python errors the scripts can raise, as far as the embedding models them. -/
inductive PyError where
  | typeError : String → PyError
  | valueError : PyError
  | keyError : String → PyError
  | httpError : Nat → PyError
  | jsonDecodeError : PyError
  | binasciiError : PyError
  | systemExit : Nat → PyError

structure GeminiCall where
  api_key : Option String := none
  gemini_user_prompt : Option String := none
  gemini_max_tokens : Option Int := none
  gemini_system_instruction : Option (Option Json) := none
  gemini_inline_data : Option (Option Json) := none
  gemini_temperature : Option Rat := none
  gemini_top_p : Option Rat := none
  gemini_top_k : Option Int := none
  gemini_candidate_count : Option Int := none
  gemini_safety_threshold : Option String := none
  gemini_api_version : Option String := none
  model : Option String := none

/-- Call semantics for the signature of `call_gemini_api` in
`generateResponse-gemini.py`: `api_key`, `gemini_user_prompt` and
`gemini_max_tokens` have no default, every other parameter does. -/
def resolve_gemini_call (c : GeminiCall) : Except PyError GeminiArgs :=
  match c.api_key with
  | none => Except.error (PyError.typeError "api_key")
  | some api_key =>
  match c.gemini_user_prompt with
  | none => Except.error (PyError.typeError "gemini_user_prompt")
  | some gemini_user_prompt =>
  match c.gemini_max_tokens with
  | none => Except.error (PyError.typeError "gemini_max_tokens")
  | some gemini_max_tokens =>
    Except.ok
      { api_key := api_key
        gemini_user_prompt := gemini_user_prompt
        gemini_max_tokens := gemini_max_tokens
        gemini_system_instruction := c.gemini_system_instruction.getD none
        gemini_inline_data := c.gemini_inline_data.getD none
        gemini_temperature := c.gemini_temperature.getD 1
        gemini_top_p := c.gemini_top_p.getD (95 / 100)
        gemini_top_k := c.gemini_top_k.getD 40
        gemini_candidate_count := c.gemini_candidate_count.getD 1
        gemini_safety_threshold := c.gemini_safety_threshold.getD "BLOCK_ONLY_HIGH"
        gemini_api_version := c.gemini_api_version.getD "v1beta"
        model := c.model.getD "gemini-2.5-pro" }

/-- The `parts` list: the text part, then the inline-data part appended when
the `gemini_inline_data` argument is truthy (lines 46-48). -/
def gemini_parts (a : GeminiArgs) : List Json :=
  [Json.obj [("text", Json.str a.gemini_user_prompt)]] ++
    (match a.gemini_inline_data with
     | some d => if pyTruthy d then [Json.obj [("inline_data", d)]] else []
     | none => [])

/-- The fixed keys of the payload dict (lines 50-69). -/
def gemini_base_kvs (a : GeminiArgs) : List (String × Json) :=
  [("contents", Json.arr [Json.obj [("parts", Json.arr (gemini_parts a))]]),
   ("generationConfig", Json.obj
      [("maxOutputTokens", Json.int a.gemini_max_tokens),
       ("temperature", Json.num a.gemini_temperature),
       ("topP", Json.num a.gemini_top_p),
       ("topK", Json.int a.gemini_top_k),
       ("candidateCount", Json.int a.gemini_candidate_count)]),
   ("safetySettings", Json.arr
      [Json.obj [("category", Json.str "HARM_CATEGORY_HATE_SPEECH"),
                 ("threshold", Json.str a.gemini_safety_threshold)],
       Json.obj [("category", Json.str "HARM_CATEGORY_HARASSMENT"),
                 ("threshold", Json.str a.gemini_safety_threshold)],
       Json.obj [("category", Json.str "HARM_CATEGORY_SEXUALLY_EXPLICIT"),
                 ("threshold", Json.str a.gemini_safety_threshold)],
       Json.obj [("category", Json.str "HARM_CATEGORY_DANGEROUS_CONTENT"),
                 ("threshold", Json.str a.gemini_safety_threshold)]])]

/-- The `systemInstruction` key, added only when the argument is truthy
(lines 71-72); Python appends it after the existing keys. -/
def gemini_si_kvs (a : GeminiArgs) : List (String × Json) :=
  match a.gemini_system_instruction with
  | some si => if pyTruthy si then [("systemInstruction", si)] else []
  | none => []

/-- The request payload built by `call_gemini_api` in
`generateResponse-gemini.py` (lines 46-72). -/
def call_gemini_api_payload (a : GeminiArgs) : Json :=
  Json.obj (gemini_base_kvs a ++ gemini_si_kvs a)

/-! ## call_gemini_api, variant `generateResponse.py` -/

structure PlainArgs where
  api_key : String
  gemini_user_prompt : String
  gemini_system_instruction : Option Json
  gemini_max_tokens : Int
  gemini_temperature : Rat
  gemini_top_p : Rat
  gemini_top_k : Int
  gemini_candidate_count : Int
  gemini_safety_threshold : String
  model : String

structure PlainCall where
  api_key : Option String := none
  gemini_user_prompt : Option String := none
  gemini_system_instruction : Option (Option Json) := none
  gemini_max_tokens : Option Int := none
  gemini_temperature : Option Rat := none
  gemini_top_p : Option Rat := none
  gemini_top_k : Option Int := none
  gemini_candidate_count : Option Int := none
  gemini_safety_threshold : Option String := none
  model : Option String := none

/-- Call semantics for the signature of `call_gemini_api` in
`generateResponse.py`: only `api_key` and `gemini_user_prompt` lack a
default; `gemini_max_tokens` defaults to 8192 here. -/
def resolve_plain_call (c : PlainCall) : Except PyError PlainArgs :=
  match c.api_key with
  | none => Except.error (PyError.typeError "api_key")
  | some api_key =>
  match c.gemini_user_prompt with
  | none => Except.error (PyError.typeError "gemini_user_prompt")
  | some gemini_user_prompt =>
    Except.ok
      { api_key := api_key
        gemini_user_prompt := gemini_user_prompt
        gemini_system_instruction := c.gemini_system_instruction.getD none
        gemini_max_tokens := c.gemini_max_tokens.getD 8192
        gemini_temperature := c.gemini_temperature.getD 1
        gemini_top_p := c.gemini_top_p.getD (95 / 100)
        gemini_top_k := c.gemini_top_k.getD 40
        gemini_candidate_count := c.gemini_candidate_count.getD 1
        gemini_safety_threshold := c.gemini_safety_threshold.getD "BLOCK_ONLY_HIGH"
        model := c.model.getD "gemini-3-pro-preview" }

/-- The fixed keys of the payload dict in `generateResponse.py`
(lines 37-58); the parts list is always the single text part. -/
def plain_base_kvs (a : PlainArgs) : List (String × Json) :=
  [("contents", Json.arr
      [Json.obj [("parts", Json.arr [Json.obj [("text", Json.str a.gemini_user_prompt)]])]]),
   ("generationConfig", Json.obj
      [("maxOutputTokens", Json.int a.gemini_max_tokens),
       ("temperature", Json.num a.gemini_temperature),
       ("topP", Json.num a.gemini_top_p),
       ("topK", Json.int a.gemini_top_k),
       ("candidateCount", Json.int a.gemini_candidate_count)]),
   ("safetySettings", Json.arr
      [Json.obj [("category", Json.str "HARM_CATEGORY_HATE_SPEECH"),
                 ("threshold", Json.str a.gemini_safety_threshold)],
       Json.obj [("category", Json.str "HARM_CATEGORY_HARASSMENT"),
                 ("threshold", Json.str a.gemini_safety_threshold)],
       Json.obj [("category", Json.str "HARM_CATEGORY_SEXUALLY_EXPLICIT"),
                 ("threshold", Json.str a.gemini_safety_threshold)],
       Json.obj [("category", Json.str "HARM_CATEGORY_DANGEROUS_CONTENT"),
                 ("threshold", Json.str a.gemini_safety_threshold)]])]

/-- The `systemInstruction` key of the plain variant (lines 60-61). -/
def plain_si_kvs (a : PlainArgs) : List (String × Json) :=
  match a.gemini_system_instruction with
  | some si => if pyTruthy si then [("systemInstruction", si)] else []
  | none => []

/-- The request payload built by `call_gemini_api` in `generateResponse.py`. -/
def call_gemini_api_plain_payload (a : PlainArgs) : Json :=
  Json.obj (plain_base_kvs a ++ plain_si_kvs a)

/-- Projection used by the testable properties: `contents[0].parts` of a
request payload. -/
def payload_parts (p : Json) : Option (List Json) :=
  match p.lookup "contents" with
  | some (Json.arr (c :: _)) =>
    match c.lookup "parts" with
    | some (Json.arr ps) => some ps
    | _ => none
  | _ => none

/-! ## Transport (lines 78-84 of `generateResponse-gemini.py`,
lines 67-70 of `generateResponse.py`)

An HTTP response is modelled by its status code, its raw body text, and the
result of parsing that body as JSON (`none` when parsing would raise). -/

structure HttpResponse where
  status_code : Nat
  text : String
  jsonBody : Option Json

/-- The statuses for which `requests`' `Response.raise_for_status` raises:
4xx and 5xx. -/
def raise_for_status_raises (status : Nat) : Bool :=
  400 ≤ status && status < 600

/-- `requests`' `Response.ok`: true exactly when `raise_for_status` does not
raise, i.e. for every status below 400 (including 3xx) and above 599. -/
def response_ok (r : HttpResponse) : Bool :=
  !raise_for_status_raises r.status_code

/-- Post-transport behaviour of `call_gemini_api` in
`generateResponse-gemini.py`: on a not-ok response it prints
`Error <status>: <body>` and re-raises; otherwise it parses and returns the
body.  The first component collects printed lines. -/
def gemini_handle_response (r : HttpResponse) : List String × Except PyError Json :=
  if response_ok r then
    match r.jsonBody with
    | some j => ([], Except.ok j)
    | none => ([], Except.error PyError.jsonDecodeError)
  else
    ([String.append "Error " (String.append (toString r.status_code)
        (String.append ": " r.text))],
     Except.error (PyError.httpError r.status_code))

/-- Post-transport behaviour of `call_gemini_api` in `generateResponse.py`:
`raise_for_status` with no printing, then parse and return the body. -/
def plain_handle_response (r : HttpResponse) : List String × Except PyError Json :=
  if raise_for_status_raises r.status_code then
    ([], Except.error (PyError.httpError r.status_code))
  else
    match r.jsonBody with
    | some j => ([], Except.ok j)
    | none => ([], Except.error PyError.jsonDecodeError)

/-! ## CLI `__main__` of `generateResponse-gemini.py`

The process's observable actions are collected as a trace of effects; the
outside world (file contents, the HTTP endpoint, the clock) is an oracle
passed in as a `World`. -/

inductive Effect where
  | printed : String → Effect
  | printedJson : Json → Effect
  | fileReadText : String → Effect
  | fileReadBin : String → Effect
  | fileWrite : String → List Nat → Effect
  | httpPost : Json → Effect

structure World where
  argv : List String
  readText : String → String
  readBin : String → List Nat
  post : Json → HttpResponse
  now : Nat → String

/-- Filename built at line 145:
`f"output_{timestamp}_c{idx}_p{part_idx}{extension}"`. -/
def output_filename (ts : String) (cidx pidx : Nat) (ext : String) : String :=
  "output_" ++ ts ++ "_c" ++ toString cidx ++ "_p" ++ toString pidx ++ ext

/-- Handling of one response part (lines 140-151).  The `Nat` component
counts calls to `datetime.now().strftime(...)`, so `now k` is the timestamp
of the k-th such call.  A part with `inline_data` but no `data` key raises
`KeyError` (line 148 subscripts `part["inline_data"]["data"]` directly);
`mime_type` is fetched with `.get` and a default (line 143). -/
def process_part (now : Nat → String) (k cidx pidx : Nat) (part : Json) :
    List Effect × Except PyError Unit × Nat :=
  match Json.lookup part "inline_data" with
  | none => ([], (Except.ok (), k))
  | some idata =>
    match idata with
    | Json.obj _ =>
      let ts := now k
      match (Json.lookup idata "mime_type").getD (Json.str "application/octet-stream") with
      | Json.str mime_type =>
        let extension := (mimetypes_guess_extension mime_type).getD ".bin"
        let filename := output_filename ts cidx pidx extension
        match Json.lookup idata "data" with
        | some (Json.str dataStr) =>
          match b64decodePy dataStr with
          | some binary_data =>
            ([Effect.fileWrite filename binary_data,
              Effect.printed (String.append "Binary output written to: " filename)],
             (Except.ok (), k + 1))
          | none => ([], (Except.error PyError.binasciiError, k + 1))
        | some _ => ([], (Except.error (PyError.typeError "b64decode argument"), k + 1))
        | none => ([], (Except.error (PyError.keyError "data"), k + 1))
      | _ => ([], (Except.error (PyError.typeError "guess_extension argument"), k + 1))
    | _ => ([], (Except.error (PyError.typeError "inline_data value"), k + 1))

/-- The inner `for part_idx, part in enumerate(...)` loop; stops at the
first raised error, as an exception aborts the loop. -/
def process_parts (now : Nat → String) (cidx : Nat) :
    Nat → Nat → List Json → List Effect × Except PyError Unit × Nat
  | k, _, [] => ([], (Except.ok (), k))
  | k, pidx, p :: rest =>
    let r1 := process_part now k cidx pidx p
    match r1.2.1 with
    | Except.error e => (r1.1, (Except.error e, r1.2.2))
    | Except.ok _ =>
      let r2 := process_parts now cidx r1.2.2 (pidx + 1) rest
      (r1.1 ++ r2.1, r2.2)

/-- Handling of one candidate (lines 137-139): skipped entirely unless it
has `content` with a `parts` key; iterating a non-list `parts` is a type
error. -/
def process_candidate (now : Nat → String) (k cidx : Nat) (cand : Json) :
    List Effect × Except PyError Unit × Nat :=
  match Json.lookup cand "content" with
  | some content =>
    match Json.lookup content "parts" with
    | some (Json.arr parts) => process_parts now cidx k 0 parts
    | some _ => ([], (Except.error (PyError.typeError "parts value"), k))
    | none => ([], (Except.ok (), k))
  | none => ([], (Except.ok (), k))

/-- The outer `for idx, candidate in enumerate(result["candidates"])` loop. -/
def process_candidates (now : Nat → String) :
    Nat → Nat → List Json → List Effect × Except PyError Unit × Nat
  | k, _, [] => ([], (Except.ok (), k))
  | k, cidx, c :: rest =>
    let r1 := process_candidate now k cidx c
    match r1.2.1 with
    | Except.error e => (r1.1, (Except.error e, r1.2.2))
    | Except.ok _ =>
      let r2 := process_candidates now r1.2.2 (cidx + 1) rest
      (r1.1 ++ r2.1, r2.2)

/-- The binary-output scan of `__main__` (lines 136-151): runs only when the
response has a `candidates` key. -/
def extract_binary_outputs (now : Nat → String) (result : Json) :
    List Effect × Except PyError Unit :=
  match Json.lookup result "candidates" with
  | some (Json.arr cands) =>
    let r := process_candidates now 0 0 cands
    (r.1, r.2.1)
  | some _ => ([], Except.error (PyError.typeError "candidates value"))
  | none => ([], Except.ok ())

/-- Decimal value of a digit run, `none` on a non-digit. -/
def digits_val : List Char → Nat → Option Nat
  | [], acc => some acc
  | c :: rest, acc =>
    if c.isDigit then digits_val rest (acc * 10 + (c.toNat - 48)) else none

/-- Decimal value of a non-empty digit run. -/
def digits_to_nat (cs : List Char) : Option Nat :=
  match cs with
  | [] => none
  | _ => digits_val cs 0

/-- Both-ends whitespace strip, as Python `str.strip()` with no argument. -/
def trim_chars (cs : List Char) : List Char :=
  ((cs.dropWhile Char.isWhitespace).reverse.dropWhile Char.isWhitespace).reverse

/-- Model of Python `int(s)` as used on `sys.argv[1]`: surrounding
whitespace, an optional sign, then decimal digits; anything else raises
`ValueError`. -/
def python_int (s : String) : Option Int :=
  match trim_chars s.data with
  | [] => none
  | c :: rest =>
    if c == '-' then (digits_to_nat rest).map (fun n => -(n : Int))
    else if c == '+' then (digits_to_nat rest).map (fun n => (n : Int))
    else (digits_to_nat (c :: rest)).map (fun n => (n : Int))

def usage_message : String :=
  "Usage: python generateResponse.py <max_tokens> <system_instruction_file> <user_prompt_file> [binary_file]"

/-- Lines 106-121: when a fourth positional argument is present, read the
file in binary mode, base64-encode it and build the inline-data dict. -/
def read_inline_arg (w : World) : List Effect × Option Json :=
  if 5 ≤ w.argv.length then
    let binary_file := w.argv.getD 4 ""
    let mime_type := (mimetypes_guess_type binary_file).getD "application/octet-stream"
    let binary_content := w.readBin binary_file
    let encoded_data := b64encodePy binary_content
    ([Effect.fileReadBin binary_file],
     some (Json.obj [("mime_type", Json.str mime_type),
                     ("data", Json.str encoded_data)]))
  else ([], none)

/-- Everything after the successful POST (lines 80-84 and 136-153): handle
the response, scan for binary outputs, and pretty-print the response JSON.
An error anywhere aborts the remaining steps. -/
def after_post (w : World) (payload : Json) : List Effect × Except PyError Unit :=
  let r := w.post payload
  let hr := gemini_handle_response r
  let printedEffects := hr.1.map Effect.printed
  match hr.2 with
  | Except.error e => (printedEffects, Except.error e)
  | Except.ok result =>
    let ex := extract_binary_outputs w.now result
    match ex.2 with
    | Except.error e => (printedEffects ++ ex.1, Except.error e)
    | Except.ok _ => (printedEffects ++ ex.1 ++ [Effect.printedJson result], Except.ok ())

/-- The body of `__main__` once the argument-count guard has passed
(lines 93-133). -/
def main_gemini_body (w : World) : List Effect × Except PyError Unit :=
  match python_int (w.argv.getD 1 "") with
  | none => ([], Except.error PyError.valueError)
  | some max_tokens =>
    let system_instruction_file := w.argv.getD 2 ""
    let system_instruction_text := w.readText system_instruction_file
    let user_prompt_file := w.argv.getD 3 ""
    let user_prompt_text := w.readText user_prompt_file
    let inline_read := read_inline_arg w
    let api_key := (w.readText "api.key").trim
    let preEffects :=
      Effect.fileReadText system_instruction_file ::
      Effect.fileReadText user_prompt_file ::
      inline_read.1 ++ [Effect.fileReadText "api.key"]
    match resolve_gemini_call
        { api_key := some api_key
          gemini_user_prompt := some user_prompt_text
          gemini_system_instruction :=
            some (some (Json.obj [("parts",
              Json.arr [Json.obj [("text", Json.str system_instruction_text)]])]))
          gemini_inline_data := some inline_read.2
          gemini_max_tokens := some max_tokens } with
    | Except.error e => (preEffects, Except.error e)
    | Except.ok args =>
      let payload := call_gemini_api_payload args
      let ap := after_post w payload
      (preEffects ++ Effect.httpPost payload :: ap.1, ap.2)

/-- `__main__` of `generateResponse-gemini.py`: fewer than four entries in
`sys.argv` (program name plus three arguments) prints the usage line and
exits with status 1 before anything else runs (lines 89-91). -/
def main_gemini (w : World) : List Effect × Except PyError Unit :=
  if w.argv.length < 4 then
    ([Effect.printed usage_message], Except.error (PyError.systemExit 1))
  else main_gemini_body w

/-! ## Well-formedness of an API response for the artifact extractor

These predicates mirror the extractor's decision tree: every key may be
absent at every level, except that an `inline_data` object that is present
must itself carry a base64 `data` string — the code subscripts it directly. -/

/-- An `inline_data` value the extractor can process without raising: an
object whose `mime_type` (when present) is a string and whose `data` key is
present, a string, and valid base64. -/
def inline_data_wf (idata : Json) : Bool :=
  match idata with
  | Json.obj _ =>
    match (Json.lookup idata "mime_type").getD (Json.str "application/octet-stream") with
    | Json.str _ =>
      match Json.lookup idata "data" with
      | some (Json.str s) => (b64decodePy s).isSome
      | some _ => false
      | none => false
    | _ => false
  | _ => false

/-- A part is fine with no `inline_data` key at all; one that has the key
needs a processable value. -/
def part_wf (p : Json) : Bool :=
  match Json.lookup p "inline_data" with
  | some idata => inline_data_wf idata
  | none => true

/-- A candidate may lack `content`, and its content may lack `parts`; a
present `parts` must be a list of well-formed parts. -/
def candidate_wf (c : Json) : Bool :=
  match Json.lookup c "content" with
  | some content =>
    match Json.lookup content "parts" with
    | some (Json.arr parts) => parts.all part_wf
    | some _ => false
    | none => true
  | none => true

/-- A response may lack `candidates`; a present `candidates` must be a list
of well-formed candidates. -/
def response_wf (j : Json) : Bool :=
  match Json.lookup j "candidates" with
  | some (Json.arr cands) => cands.all candidate_wf
  | some _ => false
  | none => true


/-! ## Concrete response shapes used by the testable properties -/

/-- A response part carrying a PNG inline-data payload. -/
def png_part (d : String) : Json :=
  Json.obj [("inline_data", Json.obj
    [("mime_type", Json.str "image/png"), ("data", Json.str d)])]

/-- A candidate with a single PNG inline-data part. -/
def png_candidate (d : String) : Json :=
  Json.obj [("content", Json.obj [("parts", Json.arr [png_part d])])]

/-- A response with two candidates, each holding one PNG inline-data part. -/
def two_png_response (d0 d1 : String) : Json :=
  Json.obj [("candidates", Json.arr [png_candidate d0, png_candidate d1])]


/-! ## Concrete sample inputs used to witness the properties -/

/-- A fully explicit argument record for the gemini variant, with no system
instruction and no inline data. -/
def sample_gemini_args : GeminiArgs :=
  { api_key := "k", gemini_user_prompt := "Hello, how are you?",
    gemini_max_tokens := 64, gemini_system_instruction := none,
    gemini_inline_data := none, gemini_temperature := 1,
    gemini_top_p := 95 / 100, gemini_top_k := 40, gemini_candidate_count := 1,
    gemini_safety_threshold := "BLOCK_ONLY_HIGH", gemini_api_version := "v1beta",
    model := "gemini-2.5-pro" }

/-- A fully explicit argument record for the plain variant. -/
def sample_plain_args : PlainArgs :=
  { api_key := "k", gemini_user_prompt := "Hello, how are you?",
    gemini_system_instruction := none, gemini_max_tokens := 1024,
    gemini_temperature := 7 / 10, gemini_top_p := 95 / 100, gemini_top_k := 40,
    gemini_candidate_count := 1, gemini_safety_threshold := "BLOCK_ONLY_HIGH",
    model := "gemini-3-pro-preview" }

/-- A sample system instruction dict as the CLI builds it. -/
def sample_system_instruction : Json :=
  Json.obj [("parts", Json.arr [Json.obj [("text", Json.str "You are a helpful assistant.")]])]

/-- A concrete world: a five-entry argv with an attachment argument, fixed
file contents, a succeeding endpoint and a per-call clock. -/
def sample_world : World :=
  { argv := ["generateResponse.py", "64", "si.txt", "up.txt", "img.png"],
    readText := fun _ => "hello",
    readBin := fun _ => [0, 1, 255],
    post := fun _ => { status_code := 200, text := "", jsonBody := some (Json.obj []) },
    now := fun k => toString k }

/-- A response exercising key absence at every level the extractor visits:
an empty candidate, a candidate whose content has no parts, a text-only
part, and an inline-data part with no mime_type. -/
def sample_sparse_response : Json :=
  Json.obj [("candidates", Json.arr
    [Json.obj [],
     Json.obj [("content", Json.obj [])],
     Json.obj [("content", Json.obj
       [("parts", Json.arr [Json.obj [("text", Json.str "hi")]])])],
     Json.obj [("content", Json.obj
       [("parts", Json.arr
         [Json.obj [("inline_data", Json.obj [("data", Json.str "AA==")])]])])]])]

/-- A response whose only part has `inline_data` without the `data` key. -/
def sample_missing_data_response : Json :=
  Json.obj [("candidates", Json.arr
    [Json.obj [("content", Json.obj
      [("parts", Json.arr
        [Json.obj [("inline_data", Json.obj
          [("mime_type", Json.str "image/png")])]])])]])]


/-! ## Supporting lemmas -/

/-- Every 6-bit value maps into the alphabet. -/
theorem b64_contains_charOf : ∀ n < 64, b64chars.contains (b64CharOf n) = true := by
  decide

/-- Decoding inverts the alphabet table on 6-bit values. -/
theorem b64_val_charOf : ∀ n < 64, b64ValOf (b64CharOf n) = n := by
  decide

/-- No alphabet character is the padding character. -/
theorem b64_charOf_ne_pad : ∀ n < 64, (b64CharOf n == '=') = false := by
  decide

/-- Base64 decode of an encode is the identity on byte lists. -/
theorem b64decode_encode (bs : List Nat) (h : ∀ b ∈ bs, b < 256) :
    b64decodeList (b64encodeList bs) = some bs := by
  match bs with
  | [] => rfl
  | [a] =>
    have ha : a < 256 := h a (by simp)
    have c1 := b64_contains_charOf (a / 4) (by omega)
    have c2 := b64_contains_charOf (a % 4 * 16) (by omega)
    have v1 := b64_val_charOf (a / 4) (by omega)
    have v2 := b64_val_charOf (a % 4 * 16) (by omega)
    simp only [b64encodeList, b64decodeList, c1, c2, Bool.and_self, if_true,
      beq_self_eq_true, List.isEmpty_nil, Bool.and_true, v1, v2,
      Option.some.injEq, List.cons.injEq, and_true]
    omega
  | [a, b] =>
    have ha : a < 256 := h a (by simp)
    have hb : b < 256 := h b (by simp)
    have c1 := b64_contains_charOf (a / 4) (by omega)
    have c2 := b64_contains_charOf (a % 4 * 16 + b / 16) (by omega)
    have c3 := b64_contains_charOf (b % 16 * 4) (by omega)
    have p3 := b64_charOf_ne_pad (b % 16 * 4) (by omega)
    have v1 := b64_val_charOf (a / 4) (by omega)
    have v2 := b64_val_charOf (a % 4 * 16 + b / 16) (by omega)
    have v3 := b64_val_charOf (b % 16 * 4) (by omega)
    simp only [b64encodeList, b64decodeList, c1, c2, c3, p3, Bool.and_self, if_true,
      Bool.false_eq_true, if_false, beq_self_eq_true, List.isEmpty_nil, Bool.and_true,
      v1, v2, v3, Option.some.injEq, List.cons.injEq, and_true]
    omega
  | a :: b :: c :: rest =>
    have ha : a < 256 := h a (by simp)
    have hb : b < 256 := h b (by simp)
    have hc : c < 256 := h c (by simp)
    have ih := b64decode_encode rest (fun x hx => h x (by simp [hx]))
    have c1 := b64_contains_charOf (a / 4) (by omega)
    have c2 := b64_contains_charOf (a % 4 * 16 + b / 16) (by omega)
    have c3 := b64_contains_charOf (b % 16 * 4 + c / 64) (by omega)
    have c4 := b64_contains_charOf (c % 64) (by omega)
    have p3 := b64_charOf_ne_pad (b % 16 * 4 + c / 64) (by omega)
    have p4 := b64_charOf_ne_pad (c % 64) (by omega)
    have v1 := b64_val_charOf (a / 4) (by omega)
    have v2 := b64_val_charOf (a % 4 * 16 + b / 16) (by omega)
    have v3 := b64_val_charOf (b % 16 * 4 + c / 64) (by omega)
    have v4 := b64_val_charOf (c % 64) (by omega)
    simp only [b64encodeList, b64decodeList, c1, c2, c3, c4, p3, p4, Bool.and_self,
      if_true, Bool.false_eq_true, if_false, beq_self_eq_true, v1, v2, v3, v4, ih,
      Option.map_some', Option.some.injEq, List.cons.injEq, and_true]
    omega

/-- String-level round trip: decoding the encoded attachment recovers the
original bytes. -/
theorem b64decodePy_encodePy (bs : List Nat) (h : ∀ b ∈ bs, b < 256) :
    b64decodePy (b64encodePy bs) = some bs :=
  b64decode_encode bs h
/-- A part whose `inline_data` is processable yields a successful step. -/
theorem process_part_ok_of_wf (now : Nat → String) (k cidx pidx : Nat) (p : Json)
    (h : part_wf p = true) :
    (process_part now k cidx pidx p).2.1 = Except.ok () := by
  unfold part_wf at h
  unfold process_part
  split at h
  next idata hl =>
    rw [hl]
    unfold inline_data_wf at h
    split at h
    next kvs =>
      dsimp only
      split at h
      next m hm =>
        split at h
        next s hd =>
          obtain ⟨bs, hbs⟩ := Option.isSome_iff_exists.mp h
          rw [hbs]
        next v hv hd => simp at h
        next hd => simp at h
      next hm => simp at h
    next hno => simp at h
  next hl =>
    rw [hl]

/-- The inner loop succeeds on a list of well-formed parts. -/
theorem process_parts_ok_of_wf (now : Nat → String) (cidx : Nat) (ps : List Json)
    (h : ps.all part_wf = true) :
    ∀ k pidx, (process_parts now cidx k pidx ps).2.1 = Except.ok () := by
  induction ps with
  | nil => intro k pidx; rfl
  | cons p rest ih =>
    intro k pidx
    simp only [List.all_cons, Bool.and_eq_true] at h
    have h1 := process_part_ok_of_wf now k cidx pidx p h.1
    unfold process_parts
    dsimp only
    rw [h1]
    dsimp only
    exact ih h.2 _ _

/-- One candidate succeeds when well-formed, whatever keys it lacks. -/
theorem process_candidate_ok_of_wf (now : Nat → String) (k cidx : Nat) (c : Json)
    (h : candidate_wf c = true) :
    (process_candidate now k cidx c).2.1 = Except.ok () := by
  unfold candidate_wf at h
  unfold process_candidate
  split at h
  next content hc =>
    split at h
    next parts hp =>
      exact process_parts_ok_of_wf now cidx parts h k 0
    next hp hne => simp at h
    next hp => rfl
  next hc => rfl

/-- The outer loop succeeds on a list of well-formed candidates. -/
theorem process_candidates_ok_of_wf (now : Nat → String) (cs : List Json)
    (h : cs.all candidate_wf = true) :
    ∀ k cidx, (process_candidates now k cidx cs).2.1 = Except.ok () := by
  induction cs with
  | nil => intro k cidx; rfl
  | cons c rest ih =>
    intro k cidx
    simp only [List.all_cons, Bool.and_eq_true] at h
    have h1 := process_candidate_ok_of_wf now k cidx c h.1
    unfold process_candidates
    dsimp only
    rw [h1]
    dsimp only
    exact ih h.2 _ _
/-- Processing a PNG part decodes its payload and writes one `.png` file. -/
theorem process_part_png (now : Nat → String) (k cidx pidx : Nat) (d : String) (bs : List Nat)
    (hd : b64decodePy d = some bs) :
    process_part now k cidx pidx (png_part d) =
      ([Effect.fileWrite (output_filename (now k) cidx pidx ".png") bs,
        Effect.printed (String.append "Binary output written to: "
          (output_filename (now k) cidx pidx ".png"))],
       (Except.ok (), k + 1)) := by
  simp [process_part, png_part, Json.lookup, mimetypes_guess_extension, hd]

/-- Filenames for candidate 0 and candidate 1 differ whatever the two
timestamps are, because the candidate index is embedded before the fixed
tail of the name. -/
theorem output_filename_c0_c1_ne (t0 t1 : String) :
    output_filename t0 0 0 ".png" ≠ output_filename t1 1 0 ".png" := by
  intro h
  have hd := congrArg String.data h
  simp only [output_filename, String.data_append, List.append_assoc] at hd
  have hd2 := List.append_cancel_left hd
  have h3 := (List.append_inj' hd2 (by decide)).2
  exact absurd h3 (by decide)

/-- Every produced filename ends in the extension derived from the MIME
type. -/
theorem output_filename_ext (t : String) (cidx pidx : Nat) (ext : String) :
    ∃ stem, output_filename t cidx pidx ext = stem ++ ext :=
  ⟨"output_" ++ t ++ "_c" ++ toString cidx ++ "_p" ++ toString pidx, rfl⟩

/-! ## The claims -/

/-- C1: in every payload built by `call_gemini_api`, `contents[0].parts`
starts with the text part holding exactly the supplied prompt, and the only
other possible part is the inline-data part, appended after it when a
non-empty inline-data object is supplied (the plain variant never has one). -/
theorem prompt_text_is_first_part :
    (∀ a : GeminiArgs, payload_parts (call_gemini_api_payload a) =
      some (Json.obj [("text", Json.str a.gemini_user_prompt)] ::
        (match a.gemini_inline_data with
         | some d => if pyTruthy d then [Json.obj [("inline_data", d)]] else []
         | none => []))) ∧
    (∀ b : PlainArgs, payload_parts (call_gemini_api_plain_payload b) =
      some [Json.obj [("text", Json.str b.gemini_user_prompt)]]) :=
  ⟨fun _ => rfl, fun _ => rfl⟩

/-- C2: when the CLI is given an attachment argument, the posted payload's
`contents[0].parts` has length 2, its second part is the inline-data part
whose `data` is the base64 encoding of the attachment file's bytes, and that
string decodes back to exactly those bytes. -/
theorem inline_attachment_roundtrip (w : World)
    (a0 a1 a2 a3 a4 : String) (restArgs : List String) (mt : Int)
    (hargv : w.argv = a0 :: a1 :: a2 :: a3 :: a4 :: restArgs)
    (hmt : python_int a1 = some mt)
    (hbytes : ∀ x ∈ w.readBin a4, x < 256) :
    ∃ P tail outcome,
      main_gemini w =
        (Effect.fileReadText a2 :: Effect.fileReadText a3 :: Effect.fileReadBin a4 ::
         Effect.fileReadText "api.key" :: Effect.httpPost P :: tail, outcome) ∧
      payload_parts P =
        some [Json.obj [("text", Json.str (w.readText a3))],
              Json.obj [("inline_data", Json.obj
                [("mime_type", Json.str
                    ((mimetypes_guess_type a4).getD "application/octet-stream")),
                 ("data", Json.str (b64encodePy (w.readBin a4)))])]] ∧
      (payload_parts P).map List.length = some 2 ∧
      b64decodePy (b64encodePy (w.readBin a4)) = some (w.readBin a4) := by
  have hlen4 : ¬ w.argv.length < 4 := by
    rw [hargv]; simp only [List.length_cons]; omega
  have h5 : 5 ≤ (a0 :: a1 :: a2 :: a3 :: a4 :: restArgs).length := by
    simp only [List.length_cons]; omega
  have hg1 : (a0 :: a1 :: a2 :: a3 :: a4 :: restArgs).getD 1 "" = a1 := rfl
  unfold main_gemini
  rw [if_neg hlen4]
  unfold main_gemini_body read_inline_arg
  rw [hargv, hg1, hmt, if_pos h5]
  refine ⟨_, _, _, rfl, rfl, rfl, b64decodePy_encodePy _ hbytes⟩

/-- Witness for C2 at a concrete world whose attachment bytes are
0, 1, 255. -/
theorem inline_attachment_roundtrip_witness :
    ∃ P tail outcome,
      main_gemini sample_world =
        (Effect.fileReadText "si.txt" :: Effect.fileReadText "up.txt" ::
         Effect.fileReadBin "img.png" :: Effect.fileReadText "api.key" ::
         Effect.httpPost P :: tail, outcome) ∧
      payload_parts P =
        some [Json.obj [("text", Json.str "hello")],
              Json.obj [("inline_data", Json.obj
                [("mime_type", Json.str "image/png"),
                 ("data", Json.str (b64encodePy [0, 1, 255]))])]] ∧
      (payload_parts P).map List.length = some 2 ∧
      b64decodePy (b64encodePy [0, 1, 255]) = some [0, 1, 255] :=
  inline_attachment_roundtrip sample_world
    "generateResponse.py" "64" "si.txt" "up.txt" "img.png" [] 64
    rfl (by decide) (by decide)

/-- C3: with no system instruction (the parameter left at its `None`
default) the payload has no `systemInstruction` key at all; a supplied
non-empty system instruction appears under that key unchanged.  Both
variants behave identically. -/
theorem system_instruction_presence :
    (∀ a : GeminiArgs, a.gemini_system_instruction = none →
       (call_gemini_api_payload a).lookup "systemInstruction" = none) ∧
    (∀ (a : GeminiArgs) (si : Json), a.gemini_system_instruction = some si →
       pyTruthy si = true →
       (call_gemini_api_payload a).lookup "systemInstruction" = some si) ∧
    (∀ b : PlainArgs, b.gemini_system_instruction = none →
       (call_gemini_api_plain_payload b).lookup "systemInstruction" = none) ∧
    (∀ (b : PlainArgs) (si : Json), b.gemini_system_instruction = some si →
       pyTruthy si = true →
       (call_gemini_api_plain_payload b).lookup "systemInstruction" = some si) := by
  refine ⟨fun a h => ?_, fun a si h ht => ?_, fun b h => ?_, fun b si h ht => ?_⟩
  · simp [call_gemini_api_payload, gemini_si_kvs, h, Json.lookup, gemini_base_kvs,
      List.find?]
  · simp [call_gemini_api_payload, gemini_si_kvs, h, ht, Json.lookup, gemini_base_kvs,
      List.find?]
  · simp [call_gemini_api_plain_payload, plain_si_kvs, h, Json.lookup, plain_base_kvs,
      List.find?]
  · simp [call_gemini_api_plain_payload, plain_si_kvs, h, ht, Json.lookup, plain_base_kvs,
      List.find?]

/-- Witness for C3: concrete argument records with and without a system
instruction, in both variants. -/
theorem system_instruction_presence_witness :
    (call_gemini_api_payload sample_gemini_args).lookup "systemInstruction" = none ∧
    (call_gemini_api_payload { sample_gemini_args with
        gemini_system_instruction := some sample_system_instruction }).lookup
      "systemInstruction" = some sample_system_instruction ∧
    (call_gemini_api_plain_payload sample_plain_args).lookup "systemInstruction" = none ∧
    (call_gemini_api_plain_payload { sample_plain_args with
        gemini_system_instruction := some sample_system_instruction }).lookup
      "systemInstruction" = some sample_system_instruction :=
  ⟨system_instruction_presence.1 sample_gemini_args rfl,
   system_instruction_presence.2.1 _ sample_system_instruction rfl rfl,
   system_instruction_presence.2.2.1 sample_plain_args rfl,
   system_instruction_presence.2.2.2 _ sample_system_instruction rfl rfl⟩

/-- C4: `safetySettings` is always exactly the four fixed hazard categories,
in order, each carrying the single caller-supplied threshold string; both
variants agree. -/
theorem safety_settings_uniform :
    (∀ a : GeminiArgs, (call_gemini_api_payload a).lookup "safetySettings" =
      some (Json.arr
        [Json.obj [("category", Json.str "HARM_CATEGORY_HATE_SPEECH"),
                   ("threshold", Json.str a.gemini_safety_threshold)],
         Json.obj [("category", Json.str "HARM_CATEGORY_HARASSMENT"),
                   ("threshold", Json.str a.gemini_safety_threshold)],
         Json.obj [("category", Json.str "HARM_CATEGORY_SEXUALLY_EXPLICIT"),
                   ("threshold", Json.str a.gemini_safety_threshold)],
         Json.obj [("category", Json.str "HARM_CATEGORY_DANGEROUS_CONTENT"),
                   ("threshold", Json.str a.gemini_safety_threshold)]])) ∧
    (∀ b : PlainArgs, (call_gemini_api_plain_payload b).lookup "safetySettings" =
      some (Json.arr
        [Json.obj [("category", Json.str "HARM_CATEGORY_HATE_SPEECH"),
                   ("threshold", Json.str b.gemini_safety_threshold)],
         Json.obj [("category", Json.str "HARM_CATEGORY_HARASSMENT"),
                   ("threshold", Json.str b.gemini_safety_threshold)],
         Json.obj [("category", Json.str "HARM_CATEGORY_SEXUALLY_EXPLICIT"),
                   ("threshold", Json.str b.gemini_safety_threshold)],
         Json.obj [("category", Json.str "HARM_CATEGORY_DANGEROUS_CONTENT"),
                   ("threshold", Json.str b.gemini_safety_threshold)]])) :=
  ⟨fun _ => rfl, fun _ => rfl⟩

/-- C5 (amended): on an HTTP response with a 4xx or 5xx status code, the
gemini variant prints `Error <status>: <body>` and raises `HTTPError`, and
the plain variant raises `HTTPError` without printing; neither returns
normally and neither retries.  Statuses outside 400-599 — including the
non-2xx 3xx range — count as success for `requests`' `Response.ok` and
`raise_for_status`, so the parsed body is returned normally there. -/
theorem http_4xx5xx_fatal (r : HttpResponse)
    (h4 : 400 ≤ r.status_code) (h6 : r.status_code < 600) :
    gemini_handle_response r =
      ([String.append "Error " (String.append (toString r.status_code)
          (String.append ": " r.text))],
       Except.error (PyError.httpError r.status_code)) ∧
    plain_handle_response r = ([], Except.error (PyError.httpError r.status_code)) := by
  have hok : raise_for_status_raises r.status_code = true := by
    simp only [raise_for_status_raises, Bool.and_eq_true, decide_eq_true_eq]
    omega
  constructor
  · simp [gemini_handle_response, response_ok, hok]
  · simp [plain_handle_response, hok]

/-- Witness for C5 at the spec's own example: HTTP 429 with a rate-limit
body. -/
theorem http_4xx5xx_fatal_witness :
    gemini_handle_response
        { status_code := 429, text := "\x7b\"error\":\"rate limited\"\x7d",
          jsonBody := none } =
      (["Error 429: \x7b\"error\":\"rate limited\"\x7d"],
       Except.error (PyError.httpError 429)) ∧
    plain_handle_response
        { status_code := 429, text := "\x7b\"error\":\"rate limited\"\x7d",
          jsonBody := none } =
      ([], Except.error (PyError.httpError 429)) :=
  http_4xx5xx_fatal
    { status_code := 429, text := "\x7b\"error\":\"rate limited\"\x7d",
      jsonBody := none }
    (by decide) (by decide)

/-- Counterexample to C5 as stated: 304 is not a 2xx status, yet
`response.ok` is true for it, so the gemini variant prints nothing, raises
nothing, and returns the parsed body normally. -/
theorem http_304_returns_normally :
    gemini_handle_response
        { status_code := 304, text := "Not Modified", jsonBody := some (Json.obj []) } =
      ([], Except.ok (Json.obj [])) := rfl

/-- C6 (amended): the extractor tolerates the absence of `candidates`,
`content`, `parts`, `inline_data` and `mime_type` at every level, but a
present `inline_data` object must itself carry a decodable `data` string —
`part["inline_data"]["data"]` is subscripted directly, so a missing `data`
key raises `KeyError`. -/
theorem missing_keys_tolerated (now : Nat → String) (j : Json)
    (h : response_wf j = true) :
    (extract_binary_outputs now j).2 = Except.ok () := by
  unfold response_wf at h
  unfold extract_binary_outputs
  split at h
  next cands hc => exact process_candidates_ok_of_wf now cands h 0 0
  next hc hne => simp at h
  next hc => rfl

/-- Witness for C6 on a response lacking keys at every level the extractor
visits. -/
theorem missing_keys_tolerated_witness :
    response_wf sample_sparse_response = true ∧
    (extract_binary_outputs (fun k => toString k) sample_sparse_response).2 =
      Except.ok () :=
  ⟨rfl, missing_keys_tolerated (fun k => toString k) sample_sparse_response rfl⟩

/-- Counterexample to C6 as stated: a part whose `inline_data` lacks the
`data` key makes the extraction step raise `KeyError` instead of tolerating
the absence. -/
theorem missing_data_key_raises :
    extract_binary_outputs (fun k => toString k) sample_missing_data_response =
      ([], Except.error (PyError.keyError "data")) := rfl

/-- C7: on a response with two candidates each holding one PNG inline-data
part, extraction writes exactly two files in candidate order, each holding
the exact decoded bytes of its part's base64 payload, each announced on
stdout; the two filenames are distinct (the candidate index is embedded in
the name) and both end in `.png`. -/
theorem two_png_candidates_extraction (now : Nat → String) (b0 b1 : List Nat)
    (h0 : ∀ x ∈ b0, x < 256) (h1 : ∀ x ∈ b1, x < 256) :
    extract_binary_outputs now (two_png_response (b64encodePy b0) (b64encodePy b1)) =
      ([Effect.fileWrite (output_filename (now 0) 0 0 ".png") b0,
        Effect.printed (String.append "Binary output written to: "
          (output_filename (now 0) 0 0 ".png")),
        Effect.fileWrite (output_filename (now 1) 1 0 ".png") b1,
        Effect.printed (String.append "Binary output written to: "
          (output_filename (now 1) 1 0 ".png"))],
       Except.ok ()) ∧
    output_filename (now 0) 0 0 ".png" ≠ output_filename (now 1) 1 0 ".png" ∧
    (∃ s0, output_filename (now 0) 0 0 ".png" = s0 ++ ".png") ∧
    (∃ s1, output_filename (now 1) 1 0 ".png" = s1 ++ ".png") := by
  refine ⟨?_, output_filename_c0_c1_ne _ _, output_filename_ext _ _ _ _,
    output_filename_ext _ _ _ _⟩
  have e0 := process_part_png now 0 0 0 (b64encodePy b0) b0 (b64decodePy_encodePy b0 h0)
  have e1 := process_part_png now 1 1 0 (b64encodePy b1) b1 (b64decodePy_encodePy b1 h1)
  simp [extract_binary_outputs, two_png_response, png_candidate, process_candidates,
    process_candidate, process_parts, Json.lookup, e0, e1]

/-- Witness for C7 with concrete payload bytes 0,1,255 and 7,8 and the
clock returning the call index. -/
theorem two_png_candidates_extraction_witness :
    extract_binary_outputs (fun k => toString k)
        (two_png_response (b64encodePy [0, 1, 255]) (b64encodePy [7, 8])) =
      ([Effect.fileWrite (output_filename "0" 0 0 ".png") [0, 1, 255],
        Effect.printed (String.append "Binary output written to: "
          (output_filename "0" 0 0 ".png")),
        Effect.fileWrite (output_filename "1" 1 0 ".png") [7, 8],
        Effect.printed (String.append "Binary output written to: "
          (output_filename "1" 1 0 ".png"))],
       Except.ok ()) ∧
    output_filename "0" 0 0 ".png" ≠ output_filename "1" 1 0 ".png" ∧
    (∃ s0, output_filename "0" 0 0 ".png" = s0 ++ ".png") ∧
    (∃ s1, output_filename "1" 1 0 ".png" = s1 ++ ".png") :=
  two_png_candidates_extraction (fun k => toString k) [0, 1, 255] [7, 8]
    (by decide) (by decide)

/-- C8: with fewer than three positional arguments (so fewer than four
`sys.argv` entries) the program prints the usage line and exits with status
1; the trace shows no file read and no network call. -/
theorem usage_exit_without_io (w : World) (h : w.argv.length < 4) :
    main_gemini w = ([Effect.printed usage_message], Except.error (PyError.systemExit 1)) := by
  simp [main_gemini, h]

/-- Witness for C8 at an argv holding only the program name. -/
theorem usage_exit_without_io_witness :
    main_gemini
        { argv := ["generateResponse.py"],
          readText := fun _ => "", readBin := fun _ => [],
          post := fun _ => { status_code := 200, text := "", jsonBody := none },
          now := fun _ => "" } =
      ([Effect.printed usage_message], Except.error (PyError.systemExit 1)) :=
  usage_exit_without_io _ (by decide)

/-- C9 (amended): in `generateResponse.py` every numeric generation
parameter has a caller-overridable default (max tokens 8192, temperature 1,
top-p 0.95, top-k 40, candidate count 1); in `generateResponse-gemini.py`
the same defaults hold except that `gemini_max_tokens` is required — it has
no default.  In both variants every supplied value, in range or not, is
placed into `generationConfig` unchanged: no validation is performed. -/
theorem numeric_defaults_and_passthrough :
    (∀ k p, resolve_plain_call { api_key := some k, gemini_user_prompt := some p } =
      Except.ok { api_key := k, gemini_user_prompt := p,
                  gemini_system_instruction := none, gemini_max_tokens := 8192,
                  gemini_temperature := 1, gemini_top_p := 95 / 100,
                  gemini_top_k := 40, gemini_candidate_count := 1,
                  gemini_safety_threshold := "BLOCK_ONLY_HIGH",
                  model := "gemini-3-pro-preview" }) ∧
    (∀ k p mt, resolve_gemini_call
        { api_key := some k, gemini_user_prompt := some p,
          gemini_max_tokens := some mt } =
      Except.ok { api_key := k, gemini_user_prompt := p, gemini_max_tokens := mt,
                  gemini_system_instruction := none, gemini_inline_data := none,
                  gemini_temperature := 1, gemini_top_p := 95 / 100,
                  gemini_top_k := 40, gemini_candidate_count := 1,
                  gemini_safety_threshold := "BLOCK_ONLY_HIGH",
                  gemini_api_version := "v1beta", model := "gemini-2.5-pro" }) ∧
    (∀ (k p : String) (mt : Int) (si idata : Option Json) (temp tp : Rat)
        (tk cc : Int) (thr ver mdl : String), resolve_gemini_call
        { api_key := some k, gemini_user_prompt := some p,
          gemini_max_tokens := some mt, gemini_system_instruction := some si,
          gemini_inline_data := some idata, gemini_temperature := some temp,
          gemini_top_p := some tp, gemini_top_k := some tk,
          gemini_candidate_count := some cc, gemini_safety_threshold := some thr,
          gemini_api_version := some ver, model := some mdl } =
      Except.ok { api_key := k, gemini_user_prompt := p, gemini_max_tokens := mt,
                  gemini_system_instruction := si, gemini_inline_data := idata,
                  gemini_temperature := temp, gemini_top_p := tp,
                  gemini_top_k := tk, gemini_candidate_count := cc,
                  gemini_safety_threshold := thr, gemini_api_version := ver,
                  model := mdl }) ∧
    (∀ a : GeminiArgs, (call_gemini_api_payload a).lookup "generationConfig" =
      some (Json.obj
        [("maxOutputTokens", Json.int a.gemini_max_tokens),
         ("temperature", Json.num a.gemini_temperature),
         ("topP", Json.num a.gemini_top_p),
         ("topK", Json.int a.gemini_top_k),
         ("candidateCount", Json.int a.gemini_candidate_count)])) ∧
    (∀ b : PlainArgs, (call_gemini_api_plain_payload b).lookup "generationConfig" =
      some (Json.obj
        [("maxOutputTokens", Json.int b.gemini_max_tokens),
         ("temperature", Json.num b.gemini_temperature),
         ("topP", Json.num b.gemini_top_p),
         ("topK", Json.int b.gemini_top_k),
         ("candidateCount", Json.int b.gemini_candidate_count)])) :=
  ⟨fun _ _ => rfl, fun _ _ _ => rfl, fun _ _ _ _ _ _ _ _ _ _ _ _ => rfl,
   fun _ => rfl, fun _ => rfl⟩

/-- Counterexample to C9 as stated: in `generateResponse-gemini.py` the
parameter `gemini_max_tokens` has no default — a call supplying everything
else raises `TypeError` instead of falling back to a default. -/
theorem gemini_max_tokens_has_no_default :
    resolve_gemini_call { api_key := some "k", gemini_user_prompt := some "p" } =
      Except.error (PyError.typeError "gemini_max_tokens") := rfl

/-- C10: whether `systemInstruction` is emitted is decided by Python
truthiness of the argument, not by its presence: a supplied falsy system
instruction, such as the empty dict, yields the identical payload to
supplying none at all, with no `systemInstruction` key. -/
theorem falsy_system_instruction_omitted :
    (∀ (a : GeminiArgs) (si : Json), a.gemini_system_instruction = some si →
       pyTruthy si = false →
       call_gemini_api_payload a =
         call_gemini_api_payload { a with gemini_system_instruction := none } ∧
       (call_gemini_api_payload a).lookup "systemInstruction" = none) ∧
    (∀ (b : PlainArgs) (si : Json), b.gemini_system_instruction = some si →
       pyTruthy si = false →
       call_gemini_api_plain_payload b =
         call_gemini_api_plain_payload { b with gemini_system_instruction := none } ∧
       (call_gemini_api_plain_payload b).lookup "systemInstruction" = none) := by
  constructor
  · intro a si h ht
    constructor
    · simp [call_gemini_api_payload, gemini_si_kvs, h, ht, gemini_base_kvs,
        gemini_parts]
    · simp [call_gemini_api_payload, gemini_si_kvs, h, ht, Json.lookup,
        gemini_base_kvs, List.find?]
  · intro b si h ht
    constructor
    · simp [call_gemini_api_plain_payload, plain_si_kvs, h, ht, plain_base_kvs]
    · simp [call_gemini_api_plain_payload, plain_si_kvs, h, ht, Json.lookup,
        plain_base_kvs, List.find?]

/-- Witness for C10: the empty dict as system instruction, in both
variants. -/
theorem falsy_system_instruction_omitted_witness :
    (call_gemini_api_payload { sample_gemini_args with
        gemini_system_instruction := some (Json.obj []) } =
      call_gemini_api_payload sample_gemini_args ∧
     (call_gemini_api_payload { sample_gemini_args with
        gemini_system_instruction := some (Json.obj []) }).lookup
       "systemInstruction" = none) ∧
    (call_gemini_api_plain_payload { sample_plain_args with
        gemini_system_instruction := some (Json.obj []) } =
      call_gemini_api_plain_payload sample_plain_args ∧
     (call_gemini_api_plain_payload { sample_plain_args with
        gemini_system_instruction := some (Json.obj []) }).lookup
       "systemInstruction" = none) :=
  ⟨falsy_system_instruction_omitted.1 _ (Json.obj []) rfl rfl,
   falsy_system_instruction_omitted.2 _ (Json.obj []) rfl rfl⟩
